import Mathlib

/-!
Verification of the grid-based `Inventory` container (`src/Inventory.cpp`).

Shallow embedding conventions:
* `size_t` indices become `Nat`; the C++ `float weight_` becomes `ℚ`
  (exact arithmetic for the accounting invariants).
* `std::vector<std::vector<Item>>` becomes `List (List Item)`; rows may be
  jagged exactly as in the source.
* The raw owning pointer `Item* equipped_` becomes `Option Item`.  To make
  ownership/release observable we carry a ghost field `freed_` recording, in
  order, every item deallocated by a `delete` in the source; `delete` is
  modelled as appending to `freed_`.
* `throw std::out_of_range` becomes the result `AtResult.outOfRange`; a raw
  `std::vector::operator[]` access past the end (undefined behaviour, which
  the source's short-circuit test prevents) is modelled as the distinct
  result `AtResult.undefined`.
-/

/-- Discriminator for `Item::type_`.  The header defining the enum is not in
the source excerpt; the spec requires a distinguished `NONE` variant and the
scenario mentions `SWORD`; `SHIELD` stands for any further variant. -/
inductive ItemType where
  | NONE
  | SWORD
  | SHIELD
deriving DecidableEq

/-- The collaborator value type `Item`: a `type_` discriminator and a
`weight_` (modelled as `ℚ` in place of `float`). -/
structure Item where
  type_ : ItemType
  weight_ : ℚ
deriving DecidableEq

/-- Modelled from the spec: the `Item` default constructor (header not in the
source excerpt).  Spec §3/§8: a default-constructed item has type `NONE`
(empty slot, zero weight in the scenario grids). -/
def defaultItem : Item := { type_ := ItemType.NONE, weight_ := 0 }

/-- State of `Inventory`: grid, equipped pointer, the two cached aggregates,
plus the ghost list `freed_` of items released by `delete`. -/
structure Inventory where
  inventory_grid_ : List (List Item)
  equipped_ : Option Item
  weight_ : ℚ
  item_count_ : ℕ
  freed_ : List Item
deriving DecidableEq

/-- Inner loop of the constructor, accumulating weight across one row:
`for (j ...) if (items[i][j].type_ != NONE) weight_ += items[i][j].weight_`. -/
def rowLoopWeight (acc : ℚ) (row : List Item) : ℚ :=
  row.foldl (fun a it => if it.type_ ≠ ItemType.NONE then a + it.weight_ else a) acc

/-- Outer loop of the constructor for `weight_`, over all rows. -/
def loopWeight (items : List (List Item)) : ℚ :=
  items.foldl rowLoopWeight 0

/-- Inner loop of the constructor, counting non-`NONE` cells of one row:
`for (j ...) if (items[i][j].type_ != NONE) item_count_++`. -/
def rowLoopCount (acc : ℕ) (row : List Item) : ℕ :=
  row.foldl (fun a it => if it.type_ ≠ ItemType.NONE then a + 1 else a) acc

/-- Outer loop of the constructor for `item_count_`, over all rows. -/
def loopCount (items : List (List Item)) : ℕ :=
  items.foldl rowLoopCount 0

/-- `Inventory::Inventory(items, equipped)`: copies the grid, stores the
equipped pointer, then scans every cell accumulating `weight_` and
`item_count_` over cells with `type_ != NONE`.  The equipped item is never
scanned.  Nothing has been deallocated yet, so the ghost `freed_` is empty. -/
def Inventory.init (items : List (List Item)) (equipped : Option Item) : Inventory :=
  { inventory_grid_ := items
    equipped_ := equipped
    weight_ := loopWeight items
    item_count_ := loopCount items
    freed_ := [] }

/-- Modelled from the spec: the default arguments of the constructor live in
the missing header; the source's doc comment and spec §4 say they default to
a 10×10 grid of default-constructed items and a null equipped pointer. -/
def defaultGrid : List (List Item) :=
  List.replicate 10 (List.replicate 10 defaultItem)

/-- `Inventory()` called with no arguments. -/
def Inventory.defaultInventory : Inventory :=
  Inventory.init defaultGrid none

/-- `Inventory::getEquipped`: returns the stored pointer, no side effects. -/
def Inventory.getEquipped (inv : Inventory) : Option Item :=
  inv.equipped_

/-- `Inventory::equip`: overwrites `equipped_` with the new pointer without
deallocating the original (so `freed_` is untouched). -/
def Inventory.equip (inv : Inventory) (itemToEquip : Option Item) : Inventory :=
  { inv with equipped_ := itemToEquip }

/-- `Inventory::discardEquipped`: if `equipped_` is non-null, `delete`s it
(recorded on the ghost `freed_` list) and resets it to null; otherwise a
no-op. -/
def Inventory.discardEquipped (inv : Inventory) : Inventory :=
  match inv.equipped_ with
  | some it => { inv with equipped_ := none, freed_ := inv.freed_ ++ [it] }
  | none => inv

/-- `Inventory::getItems`: returns the grid by value (a copy). -/
def Inventory.getItems (inv : Inventory) : List (List Item) :=
  inv.inventory_grid_

/-- `Inventory::getWeight`. -/
def Inventory.getWeight (inv : Inventory) : ℚ :=
  inv.weight_

/-- `Inventory::getCount`. -/
def Inventory.getCount (inv : Inventory) : ℕ :=
  inv.item_count_

/-- Result of a bounds-checked read. -/
inductive AtResult where
  | ok (item : Item)
  | outOfRange
  | undefined
deriving DecidableEq

/-- `Inventory::at`: mirrors
`if (row >= grid.size() || col >= grid[row].size()) throw; return grid[row][col];`
keeping the short-circuit evaluation order of `||` explicit: `grid[row]` is
read only after `row >= grid.size()` has evaluated to false.  A raw vector
access past the end would be `AtResult.undefined`. -/
def Inventory.at (inv : Inventory) (row col : Nat) : AtResult :=
  if row ≥ inv.inventory_grid_.length then AtResult.outOfRange
  else
    match inv.inventory_grid_[row]? with
    | none => AtResult.undefined
    | some r =>
      if col ≥ r.length then AtResult.outOfRange
      else
        match r[col]? with
        | none => AtResult.undefined
        | some it => AtResult.ok it

/-- Modelled from the spec: the body of `Inventory::store` is truncated in
the source excerpt.  Spec §4: bounds-checked write that succeeds iff the
target cell currently holds a `NONE`-type item; on success it writes the
item, adds its weight to `weight_` and increments `item_count_`; an occupied
cell yields `false` with no state change.  The spec leaves the out-of-bounds
policy ambiguous; we take the "returns false for any invalid access" option. -/
def Inventory.store (inv : Inventory) (row col : Nat) (pickup : Item) : Bool × Inventory :=
  match inv.inventory_grid_[row]? with
  | none => (false, inv)
  | some r =>
    match r[col]? with
    | none => (false, inv)
    | some cell =>
      if cell.type_ = ItemType.NONE then
        (true,
          { inv with
            inventory_grid_ := inv.inventory_grid_.set row (r.set col pickup)
            weight_ := inv.weight_ + pickup.weight_
            item_count_ := inv.item_count_ + 1 })
      else (false, inv)

/-- Modelled from the spec: the implied remove/discard-at-slot operation of
spec §4 is not shown in the source excerpt.  Clearing a non-`NONE` cell back
to a default (`NONE`) item symmetrically subtracts the removed item's weight
and decrements the count; an empty or out-of-bounds cell is left alone. -/
def Inventory.remove (inv : Inventory) (row col : Nat) : Inventory :=
  match inv.inventory_grid_[row]? with
  | none => inv
  | some r =>
    match r[col]? with
    | none => inv
    | some cell =>
      if cell.type_ = ItemType.NONE then inv
      else
        { inv with
          inventory_grid_ := inv.inventory_grid_.set row (r.set col defaultItem)
          weight_ := inv.weight_ - cell.weight_
          item_count_ := inv.item_count_ - 1 }

/-- Weight one cell contributes to the recomputed aggregate. -/
def cellWeight (it : Item) : ℚ :=
  if it.type_ ≠ ItemType.NONE then it.weight_ else 0

/-- Recomputed weight of one row. -/
def rowWeight (row : List Item) : ℚ :=
  (row.map cellWeight).sum

/-- Recomputed weight of the whole grid: sum of `weight_` over all cells
whose type is not `NONE`. -/
def gridWeight (g : List (List Item)) : ℚ :=
  (g.map rowWeight).sum

/-- Count one cell contributes to the recomputed aggregate. -/
def cellCount (it : Item) : ℕ :=
  if it.type_ ≠ ItemType.NONE then 1 else 0

/-- Recomputed count of one row. -/
def rowCount (row : List Item) : ℕ :=
  (row.map cellCount).sum

/-- Recomputed count of the whole grid: number of cells with type ≠ NONE. -/
def gridCount (g : List (List Item)) : ℕ :=
  (g.map rowCount).sum

/-- The documented aggregate invariant: the cached `weight_` and
`item_count_` equal the values recomputed from the grid. -/
def invariantHolds (inv : Inventory) : Prop :=
  inv.weight_ = gridWeight inv.inventory_grid_ ∧
    inv.item_count_ = gridCount inv.inventory_grid_

/-- A sample non-`NONE` item used in concrete instantiations. -/
def sword : Item := { type_ := ItemType.SWORD, weight_ := 5 }

/-- A second sample non-`NONE` item. -/
def shield : Item := { type_ := ItemType.SHIELD, weight_ := 3 }

/-- A small jagged sample inventory (rows of lengths 2 and 1). -/
def testInv : Inventory :=
  Inventory.init [[sword, shield], [defaultItem]] none

/-- A sample inventory with an equipped item. -/
def eqInv : Inventory :=
  Inventory.init [[defaultItem]] (some sword)

/-- A caller-side view after `getItems()`: the container together with the
caller's value-copy of the grid.  Mutating the copy is modelled by applying
an arbitrary transformation to it; the container state is disjoint. -/
structure GridSession where
  inv : Inventory
  copy : List (List Item)

/-- Calling `getItems()` hands the caller a value-copy of the grid. -/
def startSession (inv : Inventory) : GridSession :=
  { inv := inv, copy := inv.getItems }

/-- The caller mutates its copy arbitrarily; the container is untouched
because `getItems` returned by value, not by reference. -/
def mutateCopy (s : GridSession) (f : List (List Item) → List (List Item)) : GridSession :=
  { inv := s.inv, copy := f s.copy }

/-- C5: the no-argument constructor yields a 10×10 grid of `NONE`-type
items, zero weight, zero count, and an empty equipped slot. -/
theorem default_construction :
    Inventory.defaultInventory.inventory_grid_ =
        List.replicate 10 (List.replicate 10 defaultItem) ∧
      defaultItem.type_ = ItemType.NONE ∧
      Inventory.defaultInventory.getWeight = 0 ∧
      Inventory.defaultInventory.getCount = 0 ∧
      Inventory.defaultInventory.getEquipped = none := by
  refine ⟨rfl, rfl, ?_, rfl, rfl⟩
  decide

/-- C6: `equip x` replaces the equipped slot with `x` and changes nothing
else — the grid, `getWeight`, `getCount` are unchanged and nothing is
deallocated (the ghost `freed_` list is unchanged). -/
theorem equip_frame (inv : Inventory) (x : Option Item) :
    (inv.equip x).equipped_ = x ∧
      (inv.equip x).inventory_grid_ = inv.inventory_grid_ ∧
      (inv.equip x).getWeight = inv.getWeight ∧
      (inv.equip x).getCount = inv.getCount ∧
      (inv.equip x).freed_ = inv.freed_ :=
  ⟨rfl, rfl, rfl, rfl, rfl⟩

/-- C10: `equip x` followed by `getEquipped` returns exactly `x` (including
the null pointer), and equipping — even with null — releases nothing. -/
theorem equip_getEquipped_roundtrip (inv : Inventory) (x : Option Item) :
    (inv.equip x).getEquipped = x ∧ (inv.equip x).freed_ = inv.freed_ :=
  ⟨rfl, rfl⟩

/-- C8: the grid handed out by `getItems` is a value-copy; however the
caller mutates that copy afterward, every subsequent `at`, `getWeight` and
`getCount` on the container is unchanged. -/
theorem getItems_copy_isolation (inv : Inventory)
    (f : List (List Item) → List (List Item)) (row col : Nat) :
    (startSession inv).copy = inv.getItems ∧
      ((mutateCopy (startSession inv) f).inv).at row col = inv.at row col ∧
      ((mutateCopy (startSession inv) f).inv).getWeight = inv.getWeight ∧
      ((mutateCopy (startSession inv) f).inv).getCount = inv.getCount :=
  ⟨rfl, rfl, rfl, rfl⟩

/-- C7: `discardEquipped` deallocates the equipped item and empties the slot
when one is equipped, is a no-op otherwise, and never changes the grid or
the aggregates. -/
theorem discardEquipped_spec (inv : Inventory) :
    (inv.equipped_ = none → inv.discardEquipped = inv) ∧
      (∀ it, inv.equipped_ = some it →
        inv.discardEquipped.equipped_ = none ∧
          inv.discardEquipped.freed_ = inv.freed_ ++ [it]) ∧
      inv.discardEquipped.inventory_grid_ = inv.inventory_grid_ ∧
      inv.discardEquipped.getWeight = inv.getWeight ∧
      inv.discardEquipped.getCount = inv.getCount := by
  cases h : inv.equipped_ <;>
    simp [Inventory.discardEquipped, h, Inventory.getWeight, Inventory.getCount]

/-- Witness for C7 on a concrete state with an equipped item. -/
theorem discardEquipped_spec_witness :
    eqInv.discardEquipped.equipped_ = none ∧
      eqInv.discardEquipped.freed_ = eqInv.freed_ ++ [sword] :=
  (discardEquipped_spec eqInv).2.1 sword rfl

/-- C2: `at` returns exactly the stored item for every in-bounds index of
the (possibly jagged) grid — and without any state change, since its
embedding is a plain function of the state — and yields the out-of-range
error exactly when `row` is at or past the row count, or `col` is at or
past the length of row `row`. -/
theorem at_bounds_spec (inv : Inventory) (row col : Nat) :
    (∀ r it, inv.inventory_grid_[row]? = some r → r[col]? = some it →
        inv.at row col = AtResult.ok it) ∧
      (inv.inventory_grid_.length ≤ row → inv.at row col = AtResult.outOfRange) ∧
      (∀ r, inv.inventory_grid_[row]? = some r → r.length ≤ col →
        inv.at row col = AtResult.outOfRange) ∧
      (inv.at row col = AtResult.outOfRange →
        inv.inventory_grid_.length ≤ row ∨
          ∃ r, inv.inventory_grid_[row]? = some r ∧ r.length ≤ col) := by
  refine ⟨?_, ?_, ?_, ?_⟩
  · intro r it hr hc
    obtain ⟨hrow, -⟩ := List.getElem?_eq_some.mp hr
    obtain ⟨hcol, -⟩ := List.getElem?_eq_some.mp hc
    simp [Inventory.at, hr, hc, not_le.mpr hrow, not_le.mpr hcol]
  · intro h
    simp [Inventory.at, h]
  · intro r hr hcol
    obtain ⟨hrow, -⟩ := List.getElem?_eq_some.mp hr
    simp [Inventory.at, hr, not_le.mpr hrow, hcol]
  · intro h
    by_cases h1 : inv.inventory_grid_.length ≤ row
    · exact Or.inl h1
    · have hrow := not_le.mp h1
      have hr := List.getElem?_eq_getElem hrow
      simp only [Inventory.at, ge_iff_le, if_neg h1, hr] at h
      by_cases h2 : (inv.inventory_grid_[row]).length ≤ col
      · exact Or.inr ⟨_, hr, h2⟩
      · have hcol := not_le.mp h2
        simp [if_neg h2, List.getElem?_eq_getElem hcol] at h

/-- Witness for C2 on the concrete jagged inventory: an in-bounds read
returns the stored item and an out-of-bounds read errors. -/
theorem at_bounds_spec_witness :
    testInv.at 0 1 = AtResult.ok shield ∧ testInv.at 5 5 = AtResult.outOfRange := by
  constructor
  · exact (at_bounds_spec testInv 0 1).1 [sword, shield] shield rfl rfl
  · exact (at_bounds_spec testInv 5 5).2.1 (by decide)

/-- C9: because the source tests `row >= grid.size()` before `||` ever
evaluates `grid[row].size()`, `at` never performs a raw out-of-range vector
access: every call returns either the deliberate out-of-range error or a
stored item, never the undefined-behaviour marker. -/
theorem at_no_ub (inv : Inventory) (row col : Nat) :
    inv.at row col = AtResult.outOfRange ∨ ∃ it, inv.at row col = AtResult.ok it := by
  by_cases h1 : inv.inventory_grid_.length ≤ row
  · exact Or.inl (by simp [Inventory.at, h1])
  · have hrow := not_le.mp h1
    have hr := List.getElem?_eq_getElem hrow
    by_cases h2 : (inv.inventory_grid_[row]).length ≤ col
    · exact Or.inl (by simp [Inventory.at, if_neg h1, hr, h2])
    · have hcol := not_le.mp h2
      exact Or.inr ⟨inv.inventory_grid_[row][col],
        by simp [Inventory.at, if_neg h1, hr, if_neg h2, List.getElem?_eq_getElem hcol]⟩

/-- C3: storing any item into an in-bounds cell that currently holds a
`NONE`-type item succeeds, increments `item_count_` by exactly 1, adds
exactly the item's weight to `weight_`, and a subsequent `at` on that cell
returns the stored item. -/
theorem store_on_empty (inv : Inventory) (row col : Nat) (item r cell)
    (hr : inv.inventory_grid_[row]? = some r) (hc : r[col]? = some cell)
    (hnone : cell.type_ = ItemType.NONE) :
    (inv.store row col item).1 = true ∧
      (inv.store row col item).2.item_count_ = inv.item_count_ + 1 ∧
      (inv.store row col item).2.weight_ = inv.weight_ + item.weight_ ∧
      (inv.store row col item).2.at row col = AtResult.ok item := by
  obtain ⟨hrow, -⟩ := List.getElem?_eq_some.mp hr
  obtain ⟨hcol, -⟩ := List.getElem?_eq_some.mp hc
  refine ⟨?_, ?_, ?_, ?_⟩ <;>
    simp [Inventory.store, Inventory.at, hr, hc, hnone, not_le.mpr hrow, not_le.mpr hcol,
      List.getElem?_set_eq_of_lt, hrow, hcol]

/-- C4: storing into an in-bounds cell already holding a non-`NONE` item
fails with the boolean result `false` (not an error) and returns the state
completely unchanged — aggregates, the target cell and every other cell. -/
theorem store_on_occupied (inv : Inventory) (row col : Nat) (item r cell)
    (hr : inv.inventory_grid_[row]? = some r) (hc : r[col]? = some cell)
    (hocc : cell.type_ ≠ ItemType.NONE) :
    inv.store row col item = (false, inv) := by
  simp [Inventory.store, hr, hc, hocc]

/-- Witness for C3: storing a sword into the empty cell (0,0) of a 1×1
inventory succeeds with the documented effects. -/
theorem store_on_empty_witness :
    ((Inventory.init [[defaultItem]] none).store 0 0 sword).1 = true ∧
      ((Inventory.init [[defaultItem]] none).store 0 0 sword).2.item_count_ =
        (Inventory.init [[defaultItem]] none).item_count_ + 1 ∧
      ((Inventory.init [[defaultItem]] none).store 0 0 sword).2.weight_ =
        (Inventory.init [[defaultItem]] none).weight_ + sword.weight_ ∧
      ((Inventory.init [[defaultItem]] none).store 0 0 sword).2.at 0 0 = AtResult.ok sword :=
  store_on_empty (Inventory.init [[defaultItem]] none) 0 0 sword [defaultItem] defaultItem
    rfl rfl rfl

/-- Witness for C4: a second store into the now-occupied cell (0,0) of
`testInv` fails and changes nothing. -/
theorem store_on_occupied_witness :
    testInv.store 0 0 shield = (false, testInv) :=
  store_on_occupied testInv 0 0 shield [sword, shield] sword rfl rfl (by decide)

/-- Unfolding the recomputed row weight over a cons. -/
lemma rowWeight_cons (it : Item) (tl : List Item) :
    rowWeight (it :: tl) = cellWeight it + rowWeight tl := by
  simp [rowWeight]

/-- Unfolding the recomputed row count over a cons. -/
lemma rowCount_cons (it : Item) (tl : List Item) :
    rowCount (it :: tl) = cellCount it + rowCount tl := by
  simp [rowCount]

/-- Unfolding the recomputed grid weight over a cons. -/
lemma gridWeight_cons (r : List Item) (tl : List (List Item)) :
    gridWeight (r :: tl) = rowWeight r + gridWeight tl := by
  simp [gridWeight]

/-- Unfolding the recomputed grid count over a cons. -/
lemma gridCount_cons (r : List Item) (tl : List (List Item)) :
    gridCount (r :: tl) = rowCount r + gridCount tl := by
  simp [gridCount]

/-- The constructor's inner weight loop computes the recomputed row weight. -/
lemma rowLoopWeight_eq (row : List Item) : ∀ acc : ℚ,
    rowLoopWeight acc row = acc + rowWeight row := by
  induction row with
  | nil => intro acc; simp [rowLoopWeight, rowWeight]
  | cons it tl ih =>
    intro acc
    simp only [rowLoopWeight, List.foldl_cons] at ih ⊢
    rw [ih, rowWeight_cons]
    by_cases h : it.type_ = ItemType.NONE <;> (simp [cellWeight, h]; try ring)

/-- The constructor's inner count loop computes the recomputed row count. -/
lemma rowLoopCount_eq (row : List Item) : ∀ acc : ℕ,
    rowLoopCount acc row = acc + rowCount row := by
  induction row with
  | nil => intro acc; simp [rowLoopCount, rowCount]
  | cons it tl ih =>
    intro acc
    simp only [rowLoopCount, List.foldl_cons] at ih ⊢
    rw [ih, rowCount_cons]
    by_cases h : it.type_ = ItemType.NONE <;> (simp [cellCount, h]; try ring)

/-- The constructor's double weight loop computes the recomputed grid
weight, from any accumulator. -/
lemma gridLoopWeight_eq (g : List (List Item)) : ∀ acc : ℚ,
    g.foldl rowLoopWeight acc = acc + gridWeight g := by
  induction g with
  | nil => intro acc; simp [gridWeight]
  | cons r tl ih =>
    intro acc
    simp only [List.foldl_cons]
    rw [ih, rowLoopWeight_eq, gridWeight_cons]
    ring

/-- The constructor's double count loop computes the recomputed grid count,
from any accumulator. -/
lemma gridLoopCount_eq (g : List (List Item)) : ∀ acc : ℕ,
    g.foldl rowLoopCount acc = acc + gridCount g := by
  induction g with
  | nil => intro acc; simp [gridCount]
  | cons r tl ih =>
    intro acc
    simp only [List.foldl_cons]
    rw [ih, rowLoopCount_eq, gridCount_cons]
    ring

/-- Effect of overwriting one cell on the recomputed row weight. -/
lemma rowWeight_set (r : List Item) (c : Nat) (it : Item) (h : c < r.length) :
    rowWeight (r.set c it) + cellWeight r[c] = rowWeight r + cellWeight it := by
  induction r generalizing c with
  | nil => simp at h
  | cons a tl ih =>
    cases c with
    | zero => simp [rowWeight_cons]; ring
    | succ n =>
      have hn : n < tl.length := by simpa using h
      have := ih n hn
      simp only [List.set_cons_succ, rowWeight_cons, List.getElem_cons_succ]
      linarith

/-- Effect of overwriting one cell on the recomputed row count. -/
lemma rowCount_set (r : List Item) (c : Nat) (it : Item) (h : c < r.length) :
    rowCount (r.set c it) + cellCount r[c] = rowCount r + cellCount it := by
  induction r generalizing c with
  | nil => simp at h
  | cons a tl ih =>
    cases c with
    | zero => simp [rowCount_cons]; ring
    | succ n =>
      have hn : n < tl.length := by simpa using h
      have := ih n hn
      simp only [List.set_cons_succ, rowCount_cons, List.getElem_cons_succ]
      omega

/-- Effect of overwriting one row on the recomputed grid weight. -/
lemma gridWeight_set (g : List (List Item)) (i : Nat) (rnew : List Item)
    (h : i < g.length) :
    gridWeight (g.set i rnew) + rowWeight g[i] = gridWeight g + rowWeight rnew := by
  induction g generalizing i with
  | nil => simp at h
  | cons r tl ih =>
    cases i with
    | zero => simp [gridWeight_cons]; ring
    | succ n =>
      have hn : n < tl.length := by simpa using h
      have := ih n hn
      simp only [List.set_cons_succ, gridWeight_cons, List.getElem_cons_succ]
      linarith

/-- Effect of overwriting one row on the recomputed grid count. -/
lemma gridCount_set (g : List (List Item)) (i : Nat) (rnew : List Item)
    (h : i < g.length) :
    gridCount (g.set i rnew) + rowCount g[i] = gridCount g + rowCount rnew := by
  induction g generalizing i with
  | nil => simp at h
  | cons r tl ih =>
    cases i with
    | zero => simp [gridCount_cons]; ring
    | succ n =>
      have hn : n < tl.length := by simpa using h
      have := ih n hn
      simp only [List.set_cons_succ, gridCount_cons, List.getElem_cons_succ]
      omega

/-- The constructor establishes the aggregate invariant by its scan. -/
lemma init_invariant (items : List (List Item)) (equipped : Option Item) :
    invariantHolds (Inventory.init items equipped) := by
  constructor
  · show loopWeight items = gridWeight items
    unfold loopWeight
    rw [gridLoopWeight_eq]
    ring
  · show loopCount items = gridCount items
    unfold loopCount
    rw [gridLoopCount_eq]
    ring

/-- The public mutating/equipping operations a caller can perform after
construction. -/
inductive Op where
  | equipOp (x : Option Item)
  | discardOp
  | storeOp (row col : Nat) (it : Item)
  | removeOp (row col : Nat)
deriving DecidableEq

/-- One operation applied to a state. -/
def applyOp (inv : Inventory) : Op → Inventory
  | Op.equipOp x => inv.equip x
  | Op.discardOp => inv.discardEquipped
  | Op.storeOp row col it => (inv.store row col it).2
  | Op.removeOp row col => inv.remove row col

/-- A whole call sequence applied to a state. -/
def runOps (inv : Inventory) (ops : List Op) : Inventory :=
  ops.foldl applyOp inv

/-- An operation is a store of a non-`NONE` item, or not a store at all. -/
def storesNonNone : Op → Prop
  | Op.storeOp _ _ it => it.type_ ≠ ItemType.NONE
  | _ => True

instance instDecStoresNonNone : (op : Op) → Decidable (storesNonNone op)
  | Op.equipOp _ => Decidable.isTrue trivial
  | Op.discardOp => Decidable.isTrue trivial
  | Op.storeOp _ _ it => inferInstanceAs (Decidable (it.type_ ≠ ItemType.NONE))
  | Op.removeOp _ _ => Decidable.isTrue trivial

/-- `equip` leaves the grid and both aggregates alone, so it preserves the
invariant. -/
lemma equip_preserves_invariant (inv : Inventory) (x : Option Item)
    (h : invariantHolds inv) : invariantHolds (inv.equip x) := h

/-- `discardEquipped` leaves the grid and both aggregates alone, so it
preserves the invariant. -/
lemma discard_preserves_invariant (inv : Inventory)
    (h : invariantHolds inv) : invariantHolds inv.discardEquipped := by
  unfold Inventory.discardEquipped
  cases inv.equipped_ <;> exact h

/-- A store of a non-`NONE` item preserves the invariant: on failure the
state is unchanged, on success the `+1` / `+weight` deltas exactly match
the cell's crossing from `NONE` to non-`NONE`. -/
lemma store_preserves_invariant (inv : Inventory) (row col : Nat) (it : Item)
    (hinv : invariantHolds inv) (hty : it.type_ ≠ ItemType.NONE) :
    invariantHolds (inv.store row col it).2 := by
  unfold Inventory.store
  cases hr : inv.inventory_grid_[row]? with
  | none => exact hinv
  | some r =>
    dsimp only
    cases hc : r[col]? with
    | none => exact hinv
    | some cell =>
      dsimp only
      by_cases hcell : cell.type_ = ItemType.NONE
      · simp only [if_pos hcell]
        obtain ⟨hrow, hrget⟩ := List.getElem?_eq_some.mp hr
        obtain ⟨hcol, hcget⟩ := List.getElem?_eq_some.mp hc
        have hgw := gridWeight_set inv.inventory_grid_ row (r.set col it) hrow
        have hgc := gridCount_set inv.inventory_grid_ row (r.set col it) hrow
        rw [hrget] at hgw hgc
        have hrw := rowWeight_set r col it hcol
        have hrc := rowCount_set r col it hcol
        rw [hcget] at hrw hrc
        have hcw : cellWeight cell = 0 := by simp [cellWeight, hcell]
        have hcc : cellCount cell = 0 := by simp [cellCount, hcell]
        have hiw : cellWeight it = it.weight_ := by simp [cellWeight, hty]
        have hic : cellCount it = 1 := by simp [cellCount, hty]
        obtain ⟨hw, hc2⟩ := hinv
        constructor
        · show inv.weight_ + it.weight_ = gridWeight (inv.inventory_grid_.set row (r.set col it))
          rw [hw] at *
          linarith
        · show inv.item_count_ + 1 = gridCount (inv.inventory_grid_.set row (r.set col it))
          omega
      · simp only [if_neg hcell]
        exact hinv

/-- A remove preserves the invariant: clearing a non-`NONE` cell to the
default `NONE` item matches the `-1` / `-weight` deltas. -/
lemma remove_preserves_invariant (inv : Inventory) (row col : Nat)
    (hinv : invariantHolds inv) : invariantHolds (inv.remove row col) := by
  unfold Inventory.remove
  cases hr : inv.inventory_grid_[row]? with
  | none => exact hinv
  | some r =>
    dsimp only
    cases hc : r[col]? with
    | none => exact hinv
    | some cell =>
      dsimp only
      by_cases hcell : cell.type_ = ItemType.NONE
      · simp only [if_pos hcell]
        exact hinv
      · simp only [if_neg hcell]
        obtain ⟨hrow, hrget⟩ := List.getElem?_eq_some.mp hr
        obtain ⟨hcol, hcget⟩ := List.getElem?_eq_some.mp hc
        have hgw := gridWeight_set inv.inventory_grid_ row (r.set col defaultItem) hrow
        have hgc := gridCount_set inv.inventory_grid_ row (r.set col defaultItem) hrow
        rw [hrget] at hgw hgc
        have hrw := rowWeight_set r col defaultItem hcol
        have hrc := rowCount_set r col defaultItem hcol
        rw [hcget] at hrw hrc
        have hcw : cellWeight cell = cell.weight_ := by simp [cellWeight, hcell]
        have hcc : cellCount cell = 1 := by simp [cellCount, hcell]
        have hdw : cellWeight defaultItem = 0 := by simp [cellWeight, defaultItem]
        have hdc : cellCount defaultItem = 0 := by simp [cellCount, defaultItem]
        obtain ⟨hw, hc2⟩ := hinv
        constructor
        · show inv.weight_ - cell.weight_ =
            gridWeight (inv.inventory_grid_.set row (r.set col defaultItem))
          rw [hw] at *
          linarith
        · show inv.item_count_ - 1 =
            gridCount (inv.inventory_grid_.set row (r.set col defaultItem))
          omega

/-- Every operation in a well-typed sequence preserves the invariant. -/
lemma applyOp_preserves_invariant (inv : Inventory) (op : Op)
    (hinv : invariantHolds inv) (hop : storesNonNone op) :
    invariantHolds (applyOp inv op) := by
  cases op with
  | equipOp x => exact equip_preserves_invariant inv x hinv
  | discardOp => exact discard_preserves_invariant inv hinv
  | storeOp row col it => exact store_preserves_invariant inv row col it hinv hop
  | removeOp row col => exact remove_preserves_invariant inv row col hinv

/-- The invariant is preserved along any sequence of operations whose
stores only store non-`NONE` items. -/
lemma runOps_preserves_invariant (ops : List Op) : ∀ inv : Inventory,
    invariantHolds inv → (∀ op ∈ ops, storesNonNone op) →
    invariantHolds (runOps inv ops) := by
  induction ops with
  | nil => intro inv hinv _; exact hinv
  | cons op tl ih =>
    intro inv hinv hops
    exact ih (applyOp inv op)
      (applyOp_preserves_invariant inv op hinv (hops op (List.mem_cons_self op tl)))
      (fun o ho => hops o (List.mem_cons_of_mem op ho))

/-- C1 counterexample: the invariant is not maintained over *every* store.
Storing a `NONE`-type item into the empty cell of a 1×1 inventory succeeds
per the store policy (only the target cell is tested), incrementing
`item_count_` to 1 while the grid still holds no non-`NONE` cell, so the
count half of the invariant fails on this reachable state. -/
theorem storeNone_breaks_invariant :
    ¬ invariantHolds
      (runOps (Inventory.init [[defaultItem]] none) [Op.storeOp 0 0 defaultItem]) :=
  fun h => absurd h.2 (by decide)

/-- C1 (amended): after construction from any (possibly jagged) grid and
any sequence of equip, discardEquipped, remove and store operations in
which every stored item has non-`NONE` type, the cached `weight_` equals
the recomputed sum of `weight_` over grid cells with type ≠ `NONE` and the
cached `item_count_` equals the number of such cells; the equipped item
contributes to neither (the recomputation ranges over the grid only). -/
theorem invariant_reachable (items : List (List Item)) (equipped : Option Item)
    (ops : List Op) (hops : ∀ op ∈ ops, storesNonNone op) :
    invariantHolds (runOps (Inventory.init items equipped) ops) :=
  runOps_preserves_invariant ops (Inventory.init items equipped)
    (init_invariant items equipped) hops

/-- Witness for the amended C1 on a concrete jagged grid and a sequence
exercising all four operations. -/
theorem invariant_reachable_witness :
    invariantHolds
      (runOps (Inventory.init [[defaultItem, sword], [defaultItem]] (some shield))
        [Op.storeOp 0 0 shield, Op.equipOp (some sword), Op.discardOp,
          Op.removeOp 0 1, Op.storeOp 1 0 sword]) :=
  invariant_reachable [[defaultItem, sword], [defaultItem]] (some shield)
    [Op.storeOp 0 0 shield, Op.equipOp (some sword), Op.discardOp,
      Op.removeOp 0 1, Op.storeOp 1 0 sword]
    (by decide)
